import Mathlib

/-!
Verification of the middleware package (middleware.go): the
statusResponseWriter wrapper, the logging and panic-recovery middleware
constructors, and the process-wide registry of middleware constructors.

The Go code is embedded shallowly:
- an `http.ResponseWriter` is a `Sink`: either a base recorder (the
  underlying transport or the httptest recorder, keeping the status codes
  committed downstream and the body bytes written through) or a
  `statusResponseWriter` wrapping another sink together with its cached
  `status` field (`0` = unset);
- an `http.Handler` is a state-passing function from (sink state, request,
  world state) to the updated states plus the panic value it raised
  (`none` = normal return); Go's `recover` observes a non-nil value for
  every panic, which the `Option String` payload mirrors;
- Go panics of the registry functions are `Except.error` values.
-/

namespace Middleware

/-- A request descriptor; only the URL path is observed by this package. -/
structure Request where
  path : String
deriving DecidableEq

/-- Ambient process state: the standard output and standard error streams,
an abstract wall clock (`Nat` instants read by `time.Now`), and the
rendering function the fmt layer applies to a duration (the `%v` verb on
`end.Sub(start)`), kept abstract because its exact text is produced by the
Go runtime, not by this package. -/
structure World where
  stdout : String
  stderr : String
  clock : Nat
  render : Nat → String

/-- A response sink. `base` is the underlying `http.ResponseWriter`
(recording the codes passed to its `WriteHeader` and the bytes passed to
its `Write`); `srw` is a `statusResponseWriter` value: its `wrapped` sink
and its `status` field. -/
inductive Sink where
  | base (headerCalls : List Int) (body : List Nat) : Sink
  | srw (wrapped : Sink) (status : Int) : Sink
deriving DecidableEq

/-- `setStatus` acting on the cached `status` field: store the value only
when the field is still `0`. -/
def setStatusField (s : Int) (v : Int) : Int :=
  if s = 0 then v else s

/-- `WriteHeader`. On a base sink the committed code is recorded
downstream. On a `statusResponseWriter` it runs `l.setStatus(statusValue)`
and then unconditionally forwards `l.wrapped.WriteHeader(statusValue)`. -/
def Sink.WriteHeader : Sink → Int → Sink
  | .base h b, c => .base (h ++ [c]) b
  | .srw w s, c => .srw (w.WriteHeader c) (setStatusField s c)

/-- `Write`. On a base sink the bytes are appended to the body and the
result is `(len(data), nil)` as for the httptest recorder. On a
`statusResponseWriter` it runs `l.setStatus(http.StatusOK)` and then
returns `l.wrapped.Write(data)` unchanged. -/
def Sink.Write : Sink → List Nat → Sink × Int × Option String
  | .base h b, data => (.base h (b ++ data), (data.length : Int), none)
  | .srw w s, data =>
    (.srw (w.Write data).1 (setStatusField s 200), (w.Write data).2)

/-- `GetStatus`: the cached status, or `http.StatusOK` (200) while the
field is still `0`. The method exists only on `statusResponseWriter`; on a
base sink we return the same default, the case never being exercised. -/
def Sink.GetStatus : Sink → Int
  | .base _ _ => 200
  | .srw _ s => if s = 0 then 200 else s

/-- The `wrapped` field of a `statusResponseWriter` (identity on a base
sink, a case that never arises for the handlers of this package). -/
def Sink.unwrap : Sink → Sink
  | .base h b => .base h b
  | .srw w _ => w

/-- Apply a sequence of `WriteHeader` calls in order. -/
def runWriteHeaders (l : Sink) (cs : List Int) : Sink :=
  cs.foldl Sink.WriteHeader l

lemma runWriteHeaders_nil (l : Sink) : runWriteHeaders l [] = l := rfl

lemma runWriteHeaders_cons (l : Sink) (c : Int) (cs : List Int) :
    runWriteHeaders l (c :: cs) = runWriteHeaders (l.WriteHeader c) cs := rfl

/-- Once the cached status is non-zero, any further `WriteHeader` calls
leave it unchanged (they still reach the wrapped sink). -/
lemma runWriteHeaders_latched (cs : List Int) : ∀ (w : Sink) (s : Int), s ≠ 0 →
    ∃ w', runWriteHeaders (Sink.srw w s) cs = Sink.srw w' s := by
  induction cs with
  | nil => intro w s _; exact ⟨w, rfl⟩
  | cons c cs ih =>
    intro w s hs
    have h1 : (Sink.srw w s).WriteHeader c = Sink.srw (w.WriteHeader c) s := by
      simp [Sink.WriteHeader, setStatusField, hs]
    rw [runWriteHeaders_cons, h1]
    exact ih _ s hs

/-- Every `WriteHeader` call on a wrapper over a base sink is forwarded
downstream: the base sink records the whole sequence of codes. -/
lemma runWriteHeaders_base (cs : List Int) : ∀ (h : List Int) (b : List Nat) (s : Int),
    ∃ s', runWriteHeaders (Sink.srw (Sink.base h b) s) cs
      = Sink.srw (Sink.base (h ++ cs) b) s' := by
  induction cs with
  | nil => intro h b s; exact ⟨s, by simp [runWriteHeaders_nil]⟩
  | cons c cs ih =>
    intro h b s
    obtain ⟨s', hs'⟩ := ih (h ++ [c]) b (setStatusField s c)
    refine ⟨s', ?_⟩
    rw [runWriteHeaders_cons]
    show runWriteHeaders (Sink.srw (Sink.base (h ++ [c]) b) (setStatusField s c)) cs = _
    rw [hs']
    simp

/-- Claim C1 (amended: the latch only takes effect for a non-zero first
code, see C10): on a fresh statusResponseWriter, after a sequence of
`WriteHeader` calls whose first code is non-zero, `GetStatus()` returns
that first code regardless of the later calls; on the empty sequence it
returns the default success status 200. -/
theorem getStatus_first_code (w : Sink) (c : Int) (cs : List Int) (hc : c ≠ 0) :
    (runWriteHeaders (Sink.srw w 0) (c :: cs)).GetStatus = c ∧
    (runWriteHeaders (Sink.srw w 0) []).GetStatus = 200 := by
  constructor
  · rw [runWriteHeaders_cons]
    have h1 : (Sink.srw w 0).WriteHeader c = Sink.srw (w.WriteHeader c) c := by
      simp [Sink.WriteHeader, setStatusField]
    rw [h1]
    obtain ⟨w', hw'⟩ := runWriteHeaders_latched cs (w.WriteHeader c) c hc
    rw [hw']
    simp [Sink.GetStatus, hc]
  · rw [runWriteHeaders_nil]
    simp [Sink.GetStatus]

theorem getStatus_first_code_witness :
    (runWriteHeaders (Sink.srw (Sink.base [] []) 0) [403, 409]).GetStatus = 403 ∧
    (runWriteHeaders (Sink.srw (Sink.base [] []) 0) []).GetStatus = 200 :=
  getStatus_first_code (Sink.base [] []) 403 [409] (by decide)

/-- Claim C1 as frozen is false at the one-call sequence `[0]`: the first
code passed is `0`, yet `GetStatus()` returns 200, not `0`. -/
theorem getStatus_first_code_counterexample :
    (runWriteHeaders (Sink.srw (Sink.base [] []) 0) [0]).GetStatus = 200 ∧
    ¬ (runWriteHeaders (Sink.srw (Sink.base [] []) 0) [0]).GetStatus = 0 := by
  decide

/-- Claim C10: a first `WriteHeader 0` on a fresh statusResponseWriter
does not latch: the internal status field stays `0` (the call is still
forwarded), `GetStatus()` still returns 200, and the next status-setting
call wins - a later `WriteHeader c` with `c ≠ 0` makes `GetStatus()`
return `c`, and a later `Write` makes it return 200. -/
theorem zero_first_code_not_latched (w : Sink) :
    (Sink.srw w 0).WriteHeader 0 = Sink.srw (w.WriteHeader 0) 0 ∧
    ((Sink.srw w 0).WriteHeader 0).GetStatus = 200 ∧
    (∀ c : Int, c ≠ 0 → (((Sink.srw w 0).WriteHeader 0).WriteHeader c).GetStatus = c) ∧
    (∀ data : List Nat, (((Sink.srw w 0).WriteHeader 0).Write data).1.GetStatus = 200) := by
  refine ⟨by simp [Sink.WriteHeader, setStatusField], ?_, ?_, ?_⟩
  · simp [Sink.WriteHeader, Sink.GetStatus, setStatusField]
  · intro c hc
    simp [Sink.WriteHeader, Sink.GetStatus, setStatusField, hc]
  · intro data
    simp [Sink.WriteHeader, Sink.Write, Sink.GetStatus, setStatusField]

theorem zero_first_code_not_latched_witness :
    (((Sink.srw (Sink.base [] []) 0).WriteHeader 0).WriteHeader 403).GetStatus = 403 :=
  (zero_first_code_not_latched (Sink.base [] [])).2.2.1 403 (by decide)

/-- Claim C6: `Write` on a statusResponseWriter records the default
success status 200 when none is recorded yet (leaving a non-zero status
alone), forwards the bytes unchanged to the wrapped sink, and returns the
wrapped sink's `(count, error)` result unchanged; a base sink appends the
bytes to its body. -/
theorem write_defaults_status (w : Sink) (s : Int) (h : List Int) (b : List Nat)
    (data : List Nat) :
    (Sink.srw w s).Write data
      = (Sink.srw (w.Write data).1 (setStatusField s 200), (w.Write data).2) ∧
    (s = 0 → ((Sink.srw w s).Write data).1.GetStatus = 200) ∧
    (Sink.base h b).Write data = (Sink.base h (b ++ data), (data.length : Int), none) := by
  refine ⟨rfl, ?_, rfl⟩
  intro hs
  simp [Sink.Write, Sink.GetStatus, setStatusField, hs]

/-- The bytes of the test string, as written through the wrapper. -/
def helloBytes : List Nat := "Hello World!".toList.map Char.toNat

theorem write_defaults_status_witness :
    ((Sink.srw (Sink.base [] []) 0).Write helloBytes).1.GetStatus = 200 ∧
    ((Sink.srw (Sink.base [] []) 0).Write helloBytes).1.unwrap
      = Sink.base [] helloBytes :=
  ⟨(write_defaults_status (Sink.base [] []) 0 [] [] helloBytes).2.1 rfl, by decide⟩

/-- Claim C8: `WriteHeader` on a statusResponseWriter unconditionally
forwards the code to the wrapped sink on every call, first or later; only
the cached status field is guarded by first-write-wins. Consequently a
base sink under the wrapper records every code of a call sequence. -/
theorem writeHeader_forwards (w : Sink) (s c : Int) (h : List Int) (b : List Nat)
    (cs : List Int) :
    (Sink.srw w s).WriteHeader c = Sink.srw (w.WriteHeader c) (setStatusField s c) ∧
    (Sink.base h b).WriteHeader c = Sink.base (h ++ [c]) b ∧
    (∃ s', runWriteHeaders (Sink.srw (Sink.base h b) s) cs
      = Sink.srw (Sink.base (h ++ cs) b) s') :=
  ⟨rfl, rfl, runWriteHeaders_base cs h b s⟩

/-- An `http.Handler` in state-passing form: from the state of the sink it
is handed, the request, and the world, to the updated sink and world
states plus the panic value it raised (`none` = normal return; `recover`
observes a non-nil value for every Go panic). -/
abbrev Handler : Type := Sink → Request → World → Sink × World × Option String

/-- `NewPanicMiddleware(chain)`: the returned handler delegates to
`chain`; the deferred `recover()` turns any panic into a
`w.WriteHeader(500)` on the sink the handler was handed, and the panic is
swallowed. -/
def NewPanicMiddleware (chain : Handler) : Handler :=
  fun w r wd =>
    match chain w r wd with
    | (w1, wd1, none) => (w1, wd1, none)
    | (w1, wd1, some _) => (w1.WriteHeader 500, wd1, none)

/-- `os.Stdout` as an `io.Writer`. -/
def writeStdout : World → String → World :=
  fun wd s => { wd with stdout := wd.stdout ++ s }

/-- `os.Stderr` as an `io.Writer`. -/
def writeStderr : World → String → World :=
  fun wd s => { wd with stderr := wd.stderr ++ s }

/-- `NewLoggingMiddleware(out, chain)`: the returned handler wraps the
sink it was handed in a fresh `statusResponseWriter`, reads the clock,
delegates to `chain` through the wrapper, and on normal return writes the
single line `fmt.Sprintf("%d %s %v\n", code, r.URL.Path, end.Sub(start))`
to `out` (a panic of `chain` propagates before the line is written). -/
def NewLoggingMiddleware (out : World → String → World) (chain : Handler) : Handler :=
  fun w r wd =>
    match chain (Sink.srw w 0) r wd with
    | (sw, wd1, some v) => (sw.unwrap, wd1, some v)
    | (sw, wd1, none) =>
      (sw.unwrap,
       out wd1 (toString sw.GetStatus ++ " " ++ r.path ++ " "
         ++ wd1.render (wd1.clock - wd.clock) ++ "\n"),
       none)

/-- Claim C2: whatever the inner handler does, the handler returned by
`NewPanicMiddleware` never panics; if the inner handler panicked the sink
receives `WriteHeader 500` on top of the inner handler's partial effects;
if it returned normally the result is exactly the inner handler's. -/
theorem panic_middleware_contains (chain : Handler) (w : Sink) (r : Request)
    (wd : World) (w1 : Sink) (wd1 : World) (p : Option String)
    (h : chain w r wd = (w1, wd1, p)) :
    (NewPanicMiddleware chain w r wd).2.2 = none ∧
    (p ≠ none → NewPanicMiddleware chain w r wd = (w1.WriteHeader 500, wd1, none)) ∧
    (p = none → NewPanicMiddleware chain w r wd = (w1, wd1, none)) := by
  unfold NewPanicMiddleware
  rw [h]
  cases p with
  | none => exact ⟨rfl, fun hv => absurd rfl hv, fun _ => rfl⟩
  | some v => exact ⟨rfl, fun _ => rfl, fun hv => by cases hv⟩

/-- A handler that aborts with a panic, as in the package's test. -/
def panickingChain : Handler := fun w _ wd => (w, wd, some "bye bye")

/-- A handler that commits status 200 and returns normally. -/
def okChain : Handler := fun w _ wd => (w.WriteHeader 200, wd, none)

/-- A concrete request and world for evaluating the handlers. -/
def req0 : Request := { path := "/about/" }

def wd0 : World := { stdout := "", stderr := "", clock := 0, render := fun _ => "0s" }

theorem panic_middleware_contains_witness :
    NewPanicMiddleware panickingChain (Sink.base [] []) req0 wd0
      = ((Sink.base [] []).WriteHeader 500, wd0, none) ∧
    (NewPanicMiddleware panickingChain (Sink.base [] []) req0 wd0).1
      = Sink.base [500] [] :=
  ⟨(panic_middleware_contains panickingChain (Sink.base [] []) req0 wd0
      (Sink.base [] []) wd0 (some "bye bye") rfl).2.1 (by simp),
   by decide⟩

/-- Claim C7: when the inner handler, run through a fresh
statusResponseWriter over the handed sink, returns normally, the handler
returned by `NewLoggingMiddleware out chain` leaves the sink as the inner
handler left the wrapped part and performs exactly one write to `out`,
the newline-terminated line rendered from the captured status, the
request path and the rendered elapsed time. -/
theorem logging_middleware_line (out : World → String → World) (chain : Handler)
    (w : Sink) (r : Request) (wd : World) (w1 : Sink) (s1 : Int) (wd1 : World)
    (h : chain (Sink.srw w 0) r wd = (Sink.srw w1 s1, wd1, none)) :
    NewLoggingMiddleware out chain w r wd
      = (w1,
         out wd1 (toString (Sink.srw w1 s1).GetStatus ++ " " ++ r.path ++ " "
           ++ wd1.render (wd1.clock - wd.clock) ++ "\n"),
         none) := by
  unfold NewLoggingMiddleware
  rw [h]
  rfl

theorem logging_middleware_line_witness :
    NewLoggingMiddleware writeStdout okChain (Sink.base [] []) req0 wd0
      = (Sink.base [200] [],
         writeStdout wd0 (toString (Sink.srw (Sink.base [200] []) 200).GetStatus
           ++ " " ++ req0.path ++ " " ++ wd0.render (wd0.clock - wd0.clock) ++ "\n"),
         none) ∧
    (NewLoggingMiddleware writeStdout okChain (Sink.base [] []) req0 wd0).2.1.stdout
      = "200 /about/ 0s\n" :=
  ⟨logging_middleware_line writeStdout okChain (Sink.base [] []) req0 wd0
      (Sink.base [200] []) 200 wd0 rfl,
   by decide⟩

/-- The global registry: a map from string keys to middleware-constructor
function values. A stored value is nilable in Go, hence `Option α`; the
key order of the association list is insertion order. -/
abbrev Registry (α : Type) : Type := List (String × Option α)

/-- Go map lookup `registry[key]`: `none` = key absent, `some v` = key
present bound to `v`. -/
def lookupAssoc {α : Type} : Registry α → String → Option (Option α)
  | [], _ => none
  | p :: rest, key => if p.1 = key then some p.2 else lookupAssoc rest key

/-- `Register(key, f)`: a nil `f` returns at once; otherwise a present key
panics with "Middleware registry key reused", and a fresh key stores the
pair (`Except.error` models the panic). -/
def Register {α : Type} (reg : Registry α) (key : String) (f : Option α) :
    Except String (Registry α) :=
  match f with
  | none => .ok reg
  | some g =>
    match lookupAssoc reg key with
    | some _ => .error "Middleware registry key reused"
    | none => .ok (reg ++ [(key, some g)])

/-- `Get(key)`: the two-valued map read `f, ok := registry[key]` - the
stored value (nil when absent) and the found flag. -/
def Get {α : Type} (reg : Registry α) (key : String) : Option α × Bool :=
  match lookupAssoc reg key with
  | some f => (f, true)
  | none => (none, false)

/-- `MustGet(key)`: reads `f := registry[key]` (the zero value nil when
the key is absent) and panics with "Invalid middleware requested" when `f`
is nil. -/
def MustGet {α : Type} (reg : Registry α) (key : String) : Except String α :=
  match (lookupAssoc reg key).getD none with
  | some g => .ok g
  | none => .error "Invalid middleware requested"

lemma lookupAssoc_append_left {α : Type} (l1 l2 : Registry α) (k : String)
    (v : Option α) (h : lookupAssoc l1 k = some v) :
    lookupAssoc (l1 ++ l2) k = some v := by
  induction l1 with
  | nil => simp [lookupAssoc] at h
  | cons p rest ih =>
    by_cases hk : p.1 = k
    · simp only [lookupAssoc, hk, if_pos] at h ⊢
      exact h
    · simp only [lookupAssoc, hk, if_neg, not_false_iff, List.cons_append] at h ⊢
      exact ih h

lemma lookupAssoc_append_right {α : Type} (l1 l2 : Registry α) (k : String)
    (h : lookupAssoc l1 k = none) :
    lookupAssoc (l1 ++ l2) k = lookupAssoc l2 k := by
  induction l1 with
  | nil => rfl
  | cons p rest ih =>
    by_cases hk : p.1 = k
    · simp [lookupAssoc, hk] at h
    · simp only [lookupAssoc, hk, if_neg, not_false_iff, List.cons_append] at h ⊢
      exact ih h

lemma lookupAssoc_single {α : Type} (k : String) (v : Option α) :
    lookupAssoc [(k, v)] k = some v := by
  simp [lookupAssoc]

/-- A middleware constructor, the registry's value type. -/
abbrev MWConstructor : Type := Handler → Handler

/-- The `init()` bootstrap: register the panic middleware and the two
logging middlewares under their fixed keys, starting from the empty map. -/
def initRegistry : Except String (Registry MWConstructor) :=
  (Register ([] : Registry MWConstructor) "middleware.Panic"
      (some NewPanicMiddleware)).bind fun r1 =>
  (Register r1 "middleware.LoggingStdOut"
      (some (fun chain => NewLoggingMiddleware writeStdout chain))).bind fun r2 =>
  Register r2 "middleware.LoggingStdErr"
      (some (fun chain => NewLoggingMiddleware writeStderr chain))

/-- The registry contents after bootstrap. -/
def bootList : Registry MWConstructor :=
  [("middleware.Panic", some NewPanicMiddleware),
   ("middleware.LoggingStdOut", some (fun chain => NewLoggingMiddleware writeStdout chain)),
   ("middleware.LoggingStdErr", some (fun chain => NewLoggingMiddleware writeStderr chain))]

lemma initRegistry_eq : initRegistry = .ok bootList := rfl

/-- Claim C3: `Register` with a nil constructor is a silent no-op, even
repeated under the same key; with a non-nil constructor it panics exactly
when the key is present (whatever value is being registered, the stored
one included), and on a fresh key it stores the pair. -/
theorem register_contract (α : Type) (reg : Registry α) (key : String) :
    (Register reg key none = .ok reg) ∧
    ((Register reg key none).bind (fun r2 => Register r2 key none) = .ok reg) ∧
    (∀ g : α, (lookupAssoc reg key).isSome = true →
      Register reg key (some g) = .error "Middleware registry key reused") ∧
    (∀ g : α, lookupAssoc reg key = none →
      Register reg key (some g) = .ok (reg ++ [(key, some g)]) ∧
      lookupAssoc (reg ++ [(key, some g)]) key = some (some g)) := by
  refine ⟨rfl, rfl, ?_, ?_⟩
  · intro g hg
    obtain ⟨v, hv⟩ := Option.isSome_iff_exists.mp hg
    simp [Register, hv]
  · intro g hnone
    refine ⟨by simp [Register, hnone], ?_⟩
    rw [lookupAssoc_append_right reg _ key hnone]
    exact lookupAssoc_single key (some g)

theorem register_contract_witness :
    Register [("a", some (1 : Nat))] "a" (some 1)
      = .error "Middleware registry key reused" ∧
    Register [("a", some (1 : Nat))] "b" (some 2)
      = .ok [("a", some 1), ("b", some 2)] ∧
    Register [("a", some (1 : Nat))] "a" none = .ok [("a", some 1)] :=
  ⟨(register_contract Nat [("a", some 1)] "a").2.2.1 1 (by decide),
   ((register_contract Nat [("a", some 1)] "b").2.2.2 2 (by decide)).1,
   (register_contract Nat [("a", some 1)] "a").1⟩

/-- Claim C4: after `Register` stores a non-nil constructor under a key,
`Get` on that key returns exactly that constructor with found = true and
`MustGet` returns it without panicking; on a key that is absent (the empty
string included), `Get` returns (nil, false) without panicking and
`MustGet` panics. -/
theorem get_mustget_contract (α : Type) (reg : Registry α) (key : String) :
    (∀ (g : α) (reg' : Registry α), Register reg key (some g) = .ok reg' →
      Get reg' key = (some g, true) ∧ MustGet reg' key = .ok g) ∧
    (lookupAssoc reg key = none →
      Get reg key = (none, false) ∧
      MustGet reg key = .error "Invalid middleware requested") := by
  constructor
  · intro g reg' hr
    cases hl : lookupAssoc reg key with
    | some v => simp [Register, hl] at hr
    | none =>
      simp only [Register, hl] at hr
      have hreg' : reg' = reg ++ [(key, some g)] := by
        cases hr
        rfl
      subst hreg'
      have hfound : lookupAssoc (reg ++ [(key, some g)]) key = some (some g) := by
        rw [lookupAssoc_append_right reg _ key hl]
        exact lookupAssoc_single key (some g)
      exact ⟨by simp [Get, hfound], by simp [MustGet, hfound]⟩
  · intro hl
    exact ⟨by simp [Get, hl], by simp [MustGet, hl]⟩

theorem get_mustget_contract_witness :
    Get [("a", some (1 : Nat))] "" = (none, false) ∧
    MustGet [("a", some (1 : Nat))] "" = .error "Invalid middleware requested" ∧
    Get [("a", some (1 : Nat)), ("b", some 2)] "b" = (some 2, true) ∧
    MustGet [("a", some (1 : Nat)), ("b", some 2)] "b" = .ok 2 :=
  ⟨((get_mustget_contract Nat [("a", some 1)] "").2 (by decide)).1,
   ((get_mustget_contract Nat [("a", some 1)] "").2 (by decide)).2,
   ((get_mustget_contract Nat [("a", some 1)] "b").1 2
      [("a", some 1), ("b", some 2)] rfl).1,
   ((get_mustget_contract Nat [("a", some 1)] "b").1 2
      [("a", some 1), ("b", some 2)] rfl).2⟩

/-- A well-formed registry: no stored constructor is nil. -/
def WFReg {α : Type} (reg : Registry α) : Prop :=
  ∀ p ∈ reg, (Prod.snd p).isSome = true

/-- Claim C5: every successful `Register` preserves well-formedness (a nil
constructor is never stored) and preserves every existing binding (no
overwrite, no deletion; `Get` and `MustGet` read the map without changing
it, which the embedding states by construction), and the bootstrap `init`
produces a well-formed registry. -/
theorem registry_invariants (α : Type) :
    (∀ (reg : Registry α) (key : String) (f : Option α) (reg' : Registry α),
      Register reg key f = .ok reg' →
        (WFReg reg → WFReg reg') ∧
        (∀ (k : String) (v : Option α), lookupAssoc reg k = some v →
          lookupAssoc reg' k = some v)) ∧
    (∀ reg0, initRegistry = .ok reg0 → WFReg reg0) := by
  constructor
  · intro reg key f reg' hr
    cases f with
    | none =>
      have hreg' : reg' = reg := by
        simp only [Register] at hr
        cases hr
        rfl
      subst hreg'
      exact ⟨fun h => h, fun k v h => h⟩
    | some g =>
      cases hl : lookupAssoc reg key with
      | some v => simp [Register, hl] at hr
      | none =>
        simp only [Register, hl] at hr
        have hreg' : reg' = reg ++ [(key, some g)] := by
          cases hr
          rfl
        subst hreg'
        constructor
        · intro hwf p hp
          rcases List.mem_append.mp hp with hmem | hmem
          · exact hwf p hmem
          · rcases List.mem_singleton.mp hmem with rfl
            rfl
        · intro k v hk
          exact lookupAssoc_append_left reg _ k v hk
  · intro reg0 h0
    rw [initRegistry_eq] at h0
    have : reg0 = bootList := by
      cases h0
      rfl
    subst this
    intro p hp
    simp only [bootList, List.mem_cons, List.mem_singleton] at hp
    rcases hp with rfl | rfl | rfl | h
    · rfl
    · rfl
    · rfl
    · cases h

theorem registry_invariants_witness :
    lookupAssoc [("a", some (1 : Nat)), ("b", some 2)] "a" = some (some 1) ∧
    WFReg [("a", some (1 : Nat)), ("b", some 2)] :=
  ⟨((registry_invariants Nat).1 [("a", some 1)] "b" (some 2)
      [("a", some 1), ("b", some 2)] rfl).2 "a" (some 1) (by decide),
   ((registry_invariants Nat).1 [("a", some 1)] "b" (some 2)
      [("a", some 1), ("b", some 2)] rfl).1
     (by intro p hp; simp only [List.mem_singleton] at hp; subst hp; rfl)⟩

/-- Claim C9: the bootstrap registration succeeds (no duplicate-key panic)
and afterwards `Get` on each of the three fixed keys returns the
corresponding non-nil constructor with found = true; each stored value is
the total constructor function itself, so applying it to any handler
yields a handler. -/
theorem bootstrap_keys :
    initRegistry = .ok bootList ∧
    Get bootList "middleware.Panic" = (some NewPanicMiddleware, true) ∧
    Get bootList "middleware.LoggingStdOut"
      = (some (fun chain => NewLoggingMiddleware writeStdout chain), true) ∧
    Get bootList "middleware.LoggingStdErr"
      = (some (fun chain => NewLoggingMiddleware writeStderr chain), true) :=
  ⟨rfl, rfl, rfl, rfl⟩

end Middleware
